import Mathlib

/-!
Verification of the Outreach Orchestration & Compliance Engine of the
SolarCommand backend. The definitions below are a shallow embedding of the
Python source: enums from `app/models/schema.py`, the compliance gate and
channel escalation policy from `app/services/orchestrator.py`, opt-out
handling from `app/services/compliance.py`, the outreach dispatcher from
`app/workers/tasks.py`, and the NBA engine from `app/workers/ai_tasks.py`,
`app/ai/tasks.py` and `app/services/ai_client.py`. Database queries are
modelled as functions over explicit lists of rows; the current time and the
random disposition roll are explicit parameters.
-/

namespace SolarCommand

/-- `LeadStatus` enum from `app/models/schema.py`. -/
inductive LeadStatus where
  | ingested | scored | hot | warm | cool | contacting | contacted
  | qualified | appointment_set | nurturing | closed_won | closed_lost
  | disqualified | dnc | archived
deriving DecidableEq, Repr

/-- The `.value` string of each `LeadStatus` member. -/
def LeadStatus.value : LeadStatus → String
  | .ingested => "ingested"
  | .scored => "scored"
  | .hot => "hot"
  | .warm => "warm"
  | .cool => "cool"
  | .contacting => "contacting"
  | .contacted => "contacted"
  | .qualified => "qualified"
  | .appointment_set => "appointment_set"
  | .nurturing => "nurturing"
  | .closed_won => "closed_won"
  | .closed_lost => "closed_lost"
  | .disqualified => "disqualified"
  | .dnc => "dnc"
  | .archived => "archived"

/-- `ContactChannel` enum from `app/models/schema.py`. -/
inductive ContactChannel where
  | voice | sms | email
deriving DecidableEq, Repr

/-- `ContactDisposition` enum from `app/models/schema.py`. -/
inductive ContactDisposition where
  | appointment_booked | callback_scheduled | interested_not_ready
  | not_interested | not_homeowner | wrong_number | voicemail | no_answer
  | do_not_call | completed | failed
deriving DecidableEq, Repr

/-- `ConsentStatus` enum from `app/models/schema.py`. -/
inductive ConsentStatus where
  | opted_in | opted_out | pending | revoked
deriving DecidableEq, Repr

/-- `ConsentType` enum from `app/models/schema.py`. -/
inductive ConsentType where
  | voice_call | sms | email | all_channels
deriving DecidableEq, Repr

/-- `NBAAction` enum from `app/models/schema.py`. -/
inductive NBAAction where
  | call | sms | email | wait | rep_handoff | nurture | close
deriving DecidableEq, Repr

/-- One `ConsentLog` row (the fields the engine reads): consent type,
status, channel, and creation timestamp (modelled as a natural number). -/
structure ConsentLog where
  consent_type : ConsentType
  status : ConsentStatus
  channel : ContactChannel
  created_at : Nat
deriving DecidableEq, Repr

/-- The `Lead` fields read and written by the engine. -/
structure Lead where
  status : LeadStatus
  total_call_attempts : Nat
  total_sms_sent : Nat
  total_emails_sent : Nat
deriving DecidableEq, Repr

/-- Contact-hour settings from `app/core/config.py` (defaults 9-20 for
calls, 9-21 for SMS). -/
structure Settings where
  call_start_hour : Nat
  call_end_hour : Nat
  sms_start_hour : Nat
  sms_end_hour : Nat
deriving DecidableEq, Repr

/-- The default settings values from `app/core/config.py`. -/
def defaultSettings : Settings :=
  { call_start_hour := 9, call_end_hour := 20
    sms_start_hour := 9, sms_end_hour := 21 }

/-- The current wall-clock instant as the code observes it:
`datetime.now(tz=utc).hour` and `datetime.weekday()` (0 = Monday,
6 = Sunday). -/
structure Now where
  utcHour : Nat
  weekday : Nat
deriving DecidableEq, Repr

/-- `et_hour = (now.hour - 5) % 24` — Python modulo on a possibly negative
value, i.e. `(utcHour + 19) % 24` on naturals. -/
def etHour (n : Now) : Nat := (n.utcHour + 19) % 24

/-- `MAX_CALL_ATTEMPTS` from `app/services/orchestrator.py`. -/
def MAX_CALL_ATTEMPTS : Nat := 3

/-- `MAX_SMS_ATTEMPTS` from `app/services/orchestrator.py`. -/
def MAX_SMS_ATTEMPTS : Nat := 3

/-- `MAX_EMAIL_ATTEMPTS` from `app/services/orchestrator.py`. -/
def MAX_EMAIL_ATTEMPTS : Nat := 5

/-- `check_dnc` from `app/services/orchestrator.py`: true iff a
`ConsentLog` row with status `opted_out` exists for the lead (the query
ignores channel, consent type and timestamps). -/
def check_dnc (logs : List ConsentLog) : Bool :=
  logs.any (fun c => c.status == ConsentStatus.opted_out)

/-- `is_within_call_window` from `app/services/orchestrator.py`. -/
def is_within_call_window (s : Settings) (n : Now) : Bool :=
  if n.weekday == 6 then false
  else if n.weekday == 5 then decide (10 ≤ etHour n ∧ etHour n < 17)
  else decide (s.call_start_hour ≤ etHour n ∧ etHour n < s.call_end_hour)

/-- `is_within_sms_window` from `app/services/orchestrator.py`. -/
def is_within_sms_window (s : Settings) (n : Now) : Bool :=
  if n.weekday == 6 then false
  else decide (s.sms_start_hour ≤ etHour n ∧ etHour n < s.sms_end_hour)

/-- The `blocked_statuses` set inside `can_contact`. -/
def blocked_statuses : List LeadStatus :=
  [.dnc, .disqualified, .closed_won, .closed_lost, .archived]

/-- `can_contact` from `app/services/orchestrator.py`: the pre-contact
compliance gate. Checks, in order: DNC (any opted-out consent row), blocked
lead status, all three channel caps exhausted. -/
def can_contact (logs : List ConsentLog) (lead : Lead) : Bool × String :=
  if check_dnc logs then (false, "Lead is on DNC / opted out")
  else if blocked_statuses.contains lead.status then
    (false, "Lead status is " ++ lead.status.value)
  else if MAX_CALL_ATTEMPTS ≤ lead.total_call_attempts ∧
          MAX_SMS_ATTEMPTS ≤ lead.total_sms_sent ∧
          MAX_EMAIL_ATTEMPTS ≤ lead.total_emails_sent then
    (false, "All channel attempt limits exhausted")
  else (true, "OK")

/-- `select_channel` from `app/services/orchestrator.py`: pick the next
outreach channel by the fixed escalation order voice → SMS → email. The
time-of-day windows are read through the explicit `Now` parameter. -/
def select_channel (s : Settings) (n : Now) (lead : Lead) :
    Option ContactChannel :=
  if lead.total_call_attempts < MAX_CALL_ATTEMPTS then
    if is_within_call_window s n then some ContactChannel.voice
    else if lead.total_sms_sent < MAX_SMS_ATTEMPTS ∧
            is_within_sms_window s n = true then some ContactChannel.sms
    else none
  else if lead.total_sms_sent < MAX_SMS_ATTEMPTS then
    if is_within_sms_window s n then some ContactChannel.sms else none
  else if lead.total_emails_sent < MAX_EMAIL_ATTEMPTS then
    some ContactChannel.email
  else none

/-! ## Attempt dispatcher — `app/workers/tasks.py` -/

/-- One `OutreachAttempt` row (the fields the dispatcher branches on):
channel and the optional terminal disposition (`none` = pending). -/
structure OutreachAttempt where
  channel : ContactChannel
  disposition : Option ContactDisposition
deriving DecidableEq, Repr

/-- The `protected_statuses` set inside `_simulate_outreach`
(`app/workers/tasks.py`): statuses the disposition-to-status mapping must
never overwrite. -/
def protected_statuses : List LeadStatus :=
  [.appointment_set, .qualified, .closed_won]

/-- The `status_map` lookup inside `_simulate_outreach`, with the Python
`dict.get(chosen, LeadStatus.contacting)` default for unmapped
dispositions. -/
def status_map (d : ContactDisposition) : LeadStatus :=
  match d with
  | .appointment_booked => .qualified
  | .interested_not_ready => .nurturing
  | .not_interested => .closed_lost
  | .no_answer => .contacting
  | .voicemail => .contacting
  | .wrong_number => .disqualified
  | _ => .contacting

/-- `_simulate_outreach` from `app/workers/tasks.py`, as its effect on the
attempt row and the lead row. The random voice disposition roll is the
explicit `roll` parameter; SMS and email attempts always get disposition
`completed`. The lead status is rewritten through `status_map` only when
the current status is not protected, and only on the voice branch. -/
def simulate_outreach (roll : ContactDisposition) (a : OutreachAttempt)
    (l : Lead) : OutreachAttempt × Lead :=
  match a.channel with
  | .voice =>
    let a' := { a with disposition := some roll }
    let l' := { l with total_call_attempts := l.total_call_attempts + 1 }
    let l'' :=
      if protected_statuses.contains l.status then l'
      else { l' with status := status_map roll }
    (a', l'')
  | .sms =>
    ({ a with disposition := some ContactDisposition.completed },
     { l with total_sms_sent := l.total_sms_sent + 1 })
  | .email =>
    ({ a with disposition := some ContactDisposition.completed },
     { l with total_emails_sent := l.total_emails_sent + 1 })

/-- `execute_outreach` from `app/workers/tasks.py`: a single attempt is
executed only when its disposition is still null; otherwise the task
returns without touching the attempt or the lead. -/
def execute_outreach (roll : ContactDisposition) (a : OutreachAttempt)
    (l : Lead) : OutreachAttempt × Lead :=
  if a.disposition.isSome then (a, l) else simulate_outreach roll a l

/-- The pending-attempt query of `process_outreach_queue`
(`app/workers/tasks.py`): `select ... where disposition is null limit 10`. -/
def pending_selection (attempts : List OutreachAttempt) :
    List OutreachAttempt :=
  (attempts.filter (fun a => a.disposition.isNone)).take 10

/-! ## NBA engine rule layer — `app/ai/tasks.py` and
`app/workers/ai_tasks.py` -/

/-- The `terminal` status set of `run_nba` and `task_nba_decide`. -/
def terminal_statuses : List LeadStatus :=
  [.closed_won, .closed_lost, .dnc, .archived, .disqualified]

/-- The `protected` status set of `run_nba` and `task_nba_decide`. -/
def nba_protected : List LeadStatus := [.appointment_set, .qualified]

/-- The short-circuit layer of a rule/AI NBA computation: action, reason
codes and confidence. -/
structure NbaRuleResult where
  next_action : NBAAction
  reason_codes : List String
  confidence : ℚ
deriving DecidableEq, Repr

/-- The deterministic short-circuits of `run_nba` (`app/ai/tasks.py`),
in source order: terminal status, then opted-out (the same query as
`check_dnc`), then protected status. `none` means the function goes on to
the external reasoning call. -/
def run_nba_rules (status : LeadStatus) (logs : List ConsentLog) :
    Option NbaRuleResult :=
  if terminal_statuses.contains status then
    some { next_action := .close, reason_codes := ["terminal_status"],
           confidence := 1.0 }
  else if check_dnc logs then
    some { next_action := .close, reason_codes := ["opted_out"],
           confidence := 1.0 }
  else if nba_protected.contains status then
    some { next_action := .rep_handoff, reason_codes := ["protected_status"],
           confidence := 0.9 }
  else none

/-! ## AI client — `app/services/ai_client.py` -/

/-- The code point of a character after ASCII lower-casing (Python
`str.lower` restricted to the ASCII prompts at hand). -/
def charLowerVal (c : Char) : Nat :=
  let v := c.toNat
  if 65 ≤ v ∧ v ≤ 90 then v + 32 else v

/-- Does the first character list start the second, comparing characters
case-insensitively? -/
def isStart : List Char → List Char → Bool
  | [], _ => true
  | _ :: _, [] => false
  | a :: as, b :: bs => charLowerVal a == charLowerVal b && isStart as bs

/-- Does the first character list occur contiguously inside the second,
case-insensitively? -/
def occursIn (needle : List Char) : List Char → Bool
  | [] => isStart needle []
  | h :: t => isStart needle (h :: t) || occursIn needle t

/-- Python `needle in haystack.lower()` for a lower-case ASCII needle:
case-insensitive substring containment. -/
def strContains (haystack needle : String) : Bool :=
  occursIn needle.data haystack.data

/-- Which branch of `AIClient._fallback` (`app/services/ai_client.py`)
fires for a given system prompt. -/
inductive FallbackKind where
  | smsAgent | qaReview | objection | nba | scriptSuggest | generic
deriving DecidableEq, Repr

/-- The keyword routing of `AIClient._fallback`: lower-case the system
prompt and test the branch conditions in source order. -/
def ai_client_fallback (system_prompt : String) : FallbackKind :=
  let sp := system_prompt
  if strContains sp "sms" && strContains sp "reply" then .smsAgent
  else if strContains sp "qa" || strContains sp "compliance" then .qaReview
  else if strContains sp "objection" then .objection
  else if strContains sp "next" && strContains sp "action" then .nba
  else if strContains sp "script" then .scriptSuggest
  else .generic

/-- The view of a chat-result dict through the four keys `task_nba_decide`
reads (`result.get(...)`): a field is `none` when the key is absent. -/
structure RespFields where
  next_action : Option String
  channel : Option String
  reason_codes : Option (List String)
  confidence : Option ℚ
deriving DecidableEq, Repr

/-- The NBA-relevant keys of each `AIClient._fallback` dict. The `nba`
branch is the only one carrying `next_action`/`reason_codes`; the
`smsAgent` and `objection` dicts carry a `confidence` key (0.0); the
others carry none of the four keys. -/
def fallback_fields : FallbackKind → RespFields
  | .nba => { next_action := some "wait", channel := none,
              reason_codes := some ["ai_unavailable"], confidence := some 0.0 }
  | .smsAgent => { next_action := none, channel := none,
                   reason_codes := none, confidence := some 0.0 }
  | .objection => { next_action := none, channel := none,
                    reason_codes := none, confidence := some 0.0 }
  | _ => { next_action := none, channel := none,
           reason_codes := none, confidence := none }

/-- Outcome of the HTTP request inside `AIClient.chat`: either an exception
(connection error, timeout, non-2xx status), or a 200 response whose content
either parses as JSON (`some fields`, viewed through the NBA keys) or does
not (`json.JSONDecodeError`, keeping the raw text). -/
inductive ProviderOutcome where
  | requestFailed
  | responded (parsed : Option RespFields) (raw : String)
deriving DecidableEq, Repr

/-- What `AIClient.chat` returns: the parsed dict, the
`open-brace raw_text: content close-brace` wrapper for unparsable content,
or a `_fallback` dict. -/
inductive ChatOut where
  | dict (f : RespFields)
  | rawText (s : String)
  | fallback (k : FallbackKind)
deriving DecidableEq, Repr

/-- `AIClient.chat` from `app/services/ai_client.py`: when the provider is
not configured (`enabled = false`) the fallback is returned before any
network request is built, so the result cannot depend on the `net`
parameter; on a raised exception the fallback is returned; on a 200
response the JSON is returned if it parses, else the raw-text wrapper. -/
def aiclient_chat (enabled : Bool) (system_prompt : String)
    (net : ProviderOutcome) : ChatOut :=
  if enabled then
    match net with
    | .requestFailed => .fallback (ai_client_fallback system_prompt)
    | .responded none raw => .rawText raw
    | .responded (some f) _ => .dict f
  else .fallback (ai_client_fallback system_prompt)

/-- The NBA-key view of a `ChatOut` value: the raw-text wrapper carries
none of the four keys. -/
def chat_fields : ChatOut → RespFields
  | .dict f => f
  | .rawText _ => { next_action := none, channel := none,
                    reason_codes := none, confidence := none }
  | .fallback k => fallback_fields k

/-- `NBA_SYSTEM` from `app/services/prompts.py` (used verbatim as the
system prompt by `task_nba_decide`). -/
def NBA_SYSTEM : String :=
  "You are a Next-Best-Action engine for solar lead outreach.\nGiven lead data, decide the optimal next action.\n\nRules:\n- Never recommend contacting a DNC/opted-out lead.\n- Never recommend contacting outside 9am-9pm ET Mon-Sat.\n- Prefer call for hot leads with mobile phones.\n- Prefer SMS for warm leads or when outside call hours.\n- Use email as last resort.\n- Recommend \"wait\" if recently contacted (< 24h ago).\n- Recommend \"rep_handoff\" if lead is qualified or complex.\n- Recommend \"close\" if all channels exhausted or lead is closed.\n\nRespond ONLY with valid JSON:\n\x7b\n  \"next_action\": \"call|sms|email|wait|rep_handoff|nurture|close\",\n  \"channel\": \"voice|sms|email|null\",\n  \"schedule_time\": \"ISO datetime or null\",\n  \"reason_codes\": [\"list\", \"of\", \"reasons\"],\n  \"confidence\": 0.0-1.0\n\x7d"

set_option maxRecDepth 20000 in
/-- The keyword routing of `AIClient._fallback` sends the NBA system
prompt to the `nba` branch: the prompt contains "sms" but not "reply",
neither "qa" nor "compliance", not "objection", and both "next" and
"action". -/
lemma nba_prompt_routes_to_nba :
    ai_client_fallback NBA_SYSTEM = FallbackKind.nba := by decide

/-! ## NBA decision persistence — `task_nba_decide` in
`app/workers/ai_tasks.py` -/

/-- One `NBADecision` row as `task_nba_decide` creates it. `expires_hours`
is the distance from `created_at` to `expires_at`, in hours:
`timedelta(hours=24)` is 24 and `timedelta(days=30)` is 720. -/
structure NBADecision where
  recommended_action : NBAAction
  recommended_channel : Option ContactChannel
  reason_codes : List String
  confidence : ℚ
  expires_hours : Nat
deriving DecidableEq, Repr

/-- The `action_map` dict of `task_nba_decide`. -/
def action_map (s : String) : Option NBAAction :=
  if s == "call" then some .call
  else if s == "sms" then some .sms
  else if s == "email" then some .email
  else if s == "wait" then some .wait
  else if s == "rep_handoff" then some .rep_handoff
  else if s == "nurture" then some .nurture
  else if s == "close" then some .close
  else none

/-- The `channel_map` dict of `task_nba_decide`. -/
def channel_map (s : String) : Option ContactChannel :=
  if s == "voice" then some .voice
  else if s == "sms" then some .sms
  else if s == "email" then some .email
  else none

/-- The AI-delegation tail of `task_nba_decide`: map the chat result onto
an `NBADecision` row via `action_map`/`channel_map` with the source
defaults (`"wait"`, `None`, `[]`, `0.0`) and a 24-hour expiry. -/
def decision_of_chat (out : ChatOut) : NBADecision :=
  let r := chat_fields out
  { recommended_action := (action_map (r.next_action.getD "wait")).getD .wait
    recommended_channel := r.channel.bind channel_map
    reason_codes := r.reason_codes.getD []
    confidence := r.confidence.getD 0.0
    expires_hours := 24 }

/-- `task_nba_decide` from `app/workers/ai_tasks.py`, as the decision row
it creates: terminal status → `close` 1.0, 30-day expiry; protected status
→ `rep_handoff` 0.9, 24-hour expiry; opted out → `close` 1.0, 30-day
expiry; otherwise delegate to `AIClient.chat` on `NBA_SYSTEM` and map the
result. The three rule branches return before `ai.chat` is reached, so
their rows cannot depend on `enabled`/`net`. -/
def task_nba_decide (status : LeadStatus) (logs : List ConsentLog)
    (enabled : Bool) (net : ProviderOutcome) : NBADecision :=
  if terminal_statuses.contains status then
    { recommended_action := .close, recommended_channel := none
      reason_codes := ["terminal_status"], confidence := 1.0
      expires_hours := 720 }
  else if nba_protected.contains status then
    { recommended_action := .rep_handoff, recommended_channel := none
      reason_codes := ["protected_status"], confidence := 0.9
      expires_hours := 24 }
  else if check_dnc logs then
    { recommended_action := .close, recommended_channel := none
      reason_codes := ["opted_out"], confidence := 1.0
      expires_hours := 720 }
  else decision_of_chat (aiclient_chat enabled NBA_SYSTEM net)

/-- The effect of one `task_nba_decide` run on the `nba_decisions` table:
every branch constructs a fresh row and `db.add`s it; no existing row is
read or written. -/
def task_nba_decide_db (status : LeadStatus) (logs : List ConsentLog)
    (enabled : Bool) (net : ProviderOutcome) (db : List NBADecision) :
    List NBADecision :=
  db ++ [task_nba_decide status logs enabled net]

/-! ## Opt-out handling — `app/services/compliance.py` -/

/-- `handle_opt_out_sync` (and its async twin `handle_opt_out`) from
`app/services/compliance.py`, as its effect on the lead row and the
consent table: append one `ConsentLog` row with consent type
`all_channels`, status `opted_out` and the arrival channel, and set the
lead status to `dnc`. `ts` is the `created_at` the database assigns the
new row. -/
def handle_opt_out (lead : Lead) (logs : List ConsentLog)
    (channel : ContactChannel) (ts : Nat) : Lead × List ConsentLog :=
  ({ lead with status := .dnc },
   logs ++ [{ consent_type := .all_channels, status := .opted_out,
              channel := channel, created_at := ts }])

/-! ## Theorems -/

/-- C1: for every lead whose status is in the protected set
(`appointment_set`, `qualified`, `closed_won`), executing an outreach
attempt and applying the disposition-to-status mapping leaves the lead
status unchanged, for every channel and every possible disposition roll —
both through `_simulate_outreach` directly and through
`execute_outreach`. -/
theorem C1_protected_status_never_downgraded (roll : ContactDisposition)
    (a : OutreachAttempt) (l : Lead)
    (h : protected_statuses.contains l.status = true) :
    (simulate_outreach roll a l).2.status = l.status ∧
    (execute_outreach roll a l).2.status = l.status := by
  have hmem : l.status ∈ protected_statuses := by simpa using h
  have hsim : (simulate_outreach roll a l).2.status = l.status := by
    unfold simulate_outreach
    cases hch : a.channel <;> simp [hmem]
  refine ⟨hsim, ?_⟩
  unfold execute_outreach
  cases hd : a.disposition.isSome <;> simp [hd, hsim]

/-- C1 witness: a `qualified` lead keeps its status through a voice
attempt with a `not_interested` roll (the roll that would otherwise map to
`closed_lost`). -/
theorem C1_protected_status_never_downgraded_witness :
    (simulate_outreach ContactDisposition.not_interested
      ⟨ContactChannel.voice, none⟩ ⟨LeadStatus.qualified, 0, 0, 0⟩).2.status
        = LeadStatus.qualified ∧
    (execute_outreach ContactDisposition.not_interested
      ⟨ContactChannel.voice, none⟩ ⟨LeadStatus.qualified, 0, 0, 0⟩).2.status
        = LeadStatus.qualified :=
  C1_protected_status_never_downgraded ContactDisposition.not_interested
    ⟨ContactChannel.voice, none⟩ ⟨LeadStatus.qualified, 0, 0, 0⟩ (by decide)

/-- C2 (amended): any `opted_out` consent row denies the compliance gate,
regardless of every other field and regardless of any newer `opted_in`
row — the gate tests bare existence of an `opted_out` row, with no
last-write-wins on timestamps. -/
theorem C2_opt_out_always_blocks (logs : List ConsentLog) (lead : Lead)
    (h : ∃ c ∈ logs, c.status = ConsentStatus.opted_out) :
    can_contact logs lead = (false, "Lead is on DNC / opted out") := by
  have hdnc : check_dnc logs = true := by
    obtain ⟨c, hc, hs⟩ := h
    simp only [check_dnc, List.any_eq_true]
    exact ⟨c, hc, by simp [hs]⟩
  simp [can_contact, hdnc]

/-- C2 witness: a single old `opted_out` row denies a fresh `hot` lead. -/
theorem C2_opt_out_always_blocks_witness :
    can_contact [⟨ConsentType.all_channels, ConsentStatus.opted_out,
      ContactChannel.voice, 5⟩] ⟨LeadStatus.hot, 0, 0, 0⟩ =
      (false, "Lead is on DNC / opted out") :=
  C2_opt_out_always_blocks _ _
    ⟨⟨ConsentType.all_channels, ConsentStatus.opted_out,
      ContactChannel.voice, 5⟩, by simp, rfl⟩

/-- C2 counterexample: a lead whose only `opted_out` row (timestamp 1) is
older than a later `opted_in` row (timestamp 2), whose status is not
blocked and whose caps are not exhausted, is still denied — the claimed
last-write-wins release of the block does not happen. -/
theorem C2_counterexample :
    (∃ cin ∈ ([⟨ConsentType.all_channels, ConsentStatus.opted_out,
        ContactChannel.sms, 1⟩,
        ⟨ConsentType.all_channels, ConsentStatus.opted_in,
        ContactChannel.sms, 2⟩] : List ConsentLog),
      cin.status = ConsentStatus.opted_in ∧
      ∀ cout ∈ ([⟨ConsentType.all_channels, ConsentStatus.opted_out,
          ContactChannel.sms, 1⟩,
          ⟨ConsentType.all_channels, ConsentStatus.opted_in,
          ContactChannel.sms, 2⟩] : List ConsentLog),
        cout.status = ConsentStatus.opted_out →
          cout.created_at < cin.created_at) ∧
    blocked_statuses.contains LeadStatus.warm = false ∧
    (can_contact [⟨ConsentType.all_channels, ConsentStatus.opted_out,
        ContactChannel.sms, 1⟩,
        ⟨ConsentType.all_channels, ConsentStatus.opted_in,
        ContactChannel.sms, 2⟩] ⟨LeadStatus.warm, 0, 0, 0⟩).1 = false := by
  decide

/-- C4: re-executing an attempt whose disposition is already set is a
no-op — `execute_outreach` returns the attempt and the lead unchanged, and
a queue drain pass never selects such an attempt (its pending query keeps
only null-disposition rows). -/
theorem C4_terminal_disposition_idempotent (roll : ContactDisposition)
    (a : OutreachAttempt) (l : Lead) (d : ContactDisposition)
    (h : a.disposition = some d) :
    execute_outreach roll a l = (a, l) ∧
    ∀ attempts : List OutreachAttempt, a ∉ pending_selection attempts := by
  constructor
  · simp [execute_outreach, h]
  · intro attempts hmem
    have hf := List.take_subset 10 _ hmem
    rw [List.mem_filter] at hf
    rcases hf with ⟨-, hp⟩
    simp [h] at hp

/-- C4 witness: an attempt already at disposition `completed` passes
through `execute_outreach` untouched and is excluded from a drain pass
over a queue containing it. -/
theorem C4_terminal_disposition_idempotent_witness :
    execute_outreach ContactDisposition.no_answer
      ⟨ContactChannel.voice, some ContactDisposition.completed⟩
      ⟨LeadStatus.contacting, 1, 0, 0⟩ =
      (⟨ContactChannel.voice, some ContactDisposition.completed⟩,
       ⟨LeadStatus.contacting, 1, 0, 0⟩) ∧
    (⟨ContactChannel.voice, some ContactDisposition.completed⟩ :
        OutreachAttempt) ∉
      pending_selection [⟨ContactChannel.voice,
        some ContactDisposition.completed⟩] :=
  ⟨(C4_terminal_disposition_idempotent ContactDisposition.no_answer
      ⟨ContactChannel.voice, some ContactDisposition.completed⟩
      ⟨LeadStatus.contacting, 1, 0, 0⟩ ContactDisposition.completed rfl).1,
   (C4_terminal_disposition_idempotent ContactDisposition.no_answer
      ⟨ContactChannel.voice, some ContactDisposition.completed⟩
      ⟨LeadStatus.contacting, 1, 0, 0⟩ ContactDisposition.completed rfl).2
     [⟨ContactChannel.voice, some ContactDisposition.completed⟩]⟩

/-- C3 (amended): both NBA computations short-circuit deterministically,
but their check orders differ. `task_nba_decide` applies terminal →
protected → opt-out exactly as claimed: terminal status → `close` with
confidence 1.0, protected status → `rep_handoff` with confidence 0.9 even
when an `opted_out` consent row exists, and a remaining opted-out lead →
`close` with confidence 1.0 — each branch returning a constant row,
independent of the provider parameters, hence with no external reasoning
call. `run_nba`, however, checks opt-out before protected: a non-terminal
lead with an `opted_out` row gets `close` with confidence 1.0 even when
its status is protected, and only an opt-out-free protected lead gets
`rep_handoff` with confidence 0.9. -/
theorem C3_short_circuit_order (status : LeadStatus)
    (logs : List ConsentLog) (enabled : Bool) (net : ProviderOutcome) :
    (terminal_statuses.contains status = true →
      task_nba_decide status logs enabled net =
        ⟨.close, none, ["terminal_status"], 1.0, 720⟩ ∧
      run_nba_rules status logs =
        some ⟨.close, ["terminal_status"], 1.0⟩) ∧
    (terminal_statuses.contains status = false →
      nba_protected.contains status = true →
      task_nba_decide status logs enabled net =
        ⟨.rep_handoff, none, ["protected_status"], 0.9, 24⟩) ∧
    (terminal_statuses.contains status = false →
      nba_protected.contains status = false → check_dnc logs = true →
      task_nba_decide status logs enabled net =
        ⟨.close, none, ["opted_out"], 1.0, 720⟩) ∧
    (terminal_statuses.contains status = false → check_dnc logs = true →
      run_nba_rules status logs = some ⟨.close, ["opted_out"], 1.0⟩) ∧
    (terminal_statuses.contains status = false → check_dnc logs = false →
      nba_protected.contains status = true →
      run_nba_rules status logs =
        some ⟨.rep_handoff, ["protected_status"], 0.9⟩) := by
  refine ⟨?_, ?_, ?_, ?_, ?_⟩
  · intro h1
    have h1m : status ∈ terminal_statuses := by simpa using h1
    exact ⟨by simp [task_nba_decide, h1m], by simp [run_nba_rules, h1m]⟩
  · intro h1 h2
    have h1m : status ∉ terminal_statuses := by simpa using h1
    have h2m : status ∈ nba_protected := by simpa using h2
    simp [task_nba_decide, h1m, h2m]
  · intro h1 h2 h3
    have h1m : status ∉ terminal_statuses := by simpa using h1
    have h2m : status ∉ nba_protected := by simpa using h2
    simp [task_nba_decide, h1m, h2m, h3]
  · intro h1 h2
    have h1m : status ∉ terminal_statuses := by simpa using h1
    simp [run_nba_rules, h1m, h2]
  · intro h1 h2 h3
    have h1m : status ∉ terminal_statuses := by simpa using h1
    have h3m : status ∈ nba_protected := by simpa using h3
    simp [run_nba_rules, h1m, h2, h3m]

/-- C3 witness: a terminal (`dnc`) lead gets the constant `close` row with
confidence 1.0 from both computations, with no dependence on the provider
arguments. -/
theorem C3_short_circuit_order_witness :
    task_nba_decide LeadStatus.dnc [] true ProviderOutcome.requestFailed =
      ⟨NBAAction.close, none, ["terminal_status"], 1.0, 720⟩ ∧
    run_nba_rules LeadStatus.dnc [] =
      some ⟨NBAAction.close, ["terminal_status"], 1.0⟩ :=
  (C3_short_circuit_order LeadStatus.dnc [] true
    ProviderOutcome.requestFailed).1 (by decide)

/-- C3 counterexample: a `qualified` (protected, non-terminal) lead with
an active opt-out is routed by `run_nba` to `close`/1.0 with reason
`opted_out` — not to `rep_handoff`/0.9 as the claimed terminal → protected
→ opt-out order requires. -/
theorem C3_counterexample :
    run_nba_rules LeadStatus.qualified
      [⟨ConsentType.all_channels, ConsentStatus.opted_out,
        ContactChannel.sms, 1⟩] =
      some ⟨NBAAction.close, ["opted_out"], 1.0⟩ ∧
    NBAAction.close ≠ NBAAction.rep_handoff ∧
    nba_protected.contains LeadStatus.qualified = true ∧
    terminal_statuses.contains LeadStatus.qualified = false :=
  ⟨rfl, by decide, by decide, by decide⟩

/-- C5 (amended): when the provider is not configured, `AIClient.chat`
returns the `_fallback` dict for the NBA prompt — `next_action = wait`,
no channel, reason `ai_unavailable`, confidence 0.0 — whatever the network
outcome parameter is (the request is never built, so the result cannot
depend on it); a raised provider error produces the same fallback, and the
decision row built from it is `wait`/none/`ai_unavailable`/0.0. But a 200
response whose content does not parse as JSON is returned as a raw-text
wrapper, not as the fallback, and the decision row built from it carries
empty reason codes. -/
theorem C5_fallback_behaviour :
    (∀ net, aiclient_chat false NBA_SYSTEM net =
      ChatOut.fallback FallbackKind.nba) ∧
    aiclient_chat true NBA_SYSTEM ProviderOutcome.requestFailed =
      ChatOut.fallback FallbackKind.nba ∧
    decision_of_chat (ChatOut.fallback FallbackKind.nba) =
      ⟨NBAAction.wait, none, ["ai_unavailable"], 0.0, 24⟩ ∧
    (∀ raw, aiclient_chat true NBA_SYSTEM (.responded none raw) =
      ChatOut.rawText raw) ∧
    (∀ raw, decision_of_chat (ChatOut.rawText raw) =
      ⟨NBAAction.wait, none, [], 0.0, 24⟩) := by
  refine ⟨?_, ?_, ?_, ?_, ?_⟩
  · intro net
    simp [aiclient_chat, nba_prompt_routes_to_nba]
  · simp [aiclient_chat, nba_prompt_routes_to_nba]
  · simp [decision_of_chat, chat_fields, fallback_fields, action_map]
  · intro raw
    simp [aiclient_chat]
  · intro raw
    simp [decision_of_chat, chat_fields, action_map]

/-- C5 counterexample: a configured provider answering 200 with
unparsable content makes `AIClient.chat` return the raw-text wrapper, not
the fixed fallback; the decision row built from it has empty reason codes
instead of `ai_unavailable`. -/
theorem C5_counterexample :
    aiclient_chat true NBA_SYSTEM
      (.responded none "Happy to help with this lead.") =
      ChatOut.rawText "Happy to help with this lead." ∧
    (∀ k, ChatOut.rawText "Happy to help with this lead." ≠
      ChatOut.fallback k) ∧
    (decision_of_chat
      (ChatOut.rawText "Happy to help with this lead.")).reason_codes
      = [] ∧
    ([] : List String) ≠ ["ai_unavailable"] := by
  refine ⟨by simp [aiclient_chat], fun k => by simp, ?_, by simp⟩
  simp [decision_of_chat, chat_fields]

/-- C6 (amended): every `task_nba_decide` run appends one freshly built
decision row and leaves every existing row unchanged, but the expiry is
not uniformly 24 hours: the terminal-status and opt-out branches persist
a 30-day (720-hour) expiry, while the protected branch and the
AI-delegated branch persist a 24-hour expiry. -/
theorem C6_decision_expiry_and_append (status : LeadStatus)
    (logs : List ConsentLog) (enabled : Bool) (net : ProviderOutcome)
    (db : List NBADecision) :
    task_nba_decide_db status logs enabled net db =
      db ++ [task_nba_decide status logs enabled net] ∧
    (terminal_statuses.contains status = true →
      (task_nba_decide status logs enabled net).expires_hours = 720) ∧
    (terminal_statuses.contains status = false →
      nba_protected.contains status = true →
      (task_nba_decide status logs enabled net).expires_hours = 24) ∧
    (terminal_statuses.contains status = false →
      nba_protected.contains status = false → check_dnc logs = true →
      (task_nba_decide status logs enabled net).expires_hours = 720) ∧
    (terminal_statuses.contains status = false →
      nba_protected.contains status = false → check_dnc logs = false →
      (task_nba_decide status logs enabled net).expires_hours = 24) := by
  refine ⟨rfl, ?_, ?_, ?_, ?_⟩
  · intro h1
    have h1m : status ∈ terminal_statuses := by simpa using h1
    simp [task_nba_decide, h1m]
  · intro h1 h2
    have h1m : status ∉ terminal_statuses := by simpa using h1
    have h2m : status ∈ nba_protected := by simpa using h2
    simp [task_nba_decide, h1m, h2m]
  · intro h1 h2 h3
    have h1m : status ∉ terminal_statuses := by simpa using h1
    have h2m : status ∉ nba_protected := by simpa using h2
    simp [task_nba_decide, h1m, h2m, h3]
  · intro h1 h2 h3
    have h1m : status ∉ terminal_statuses := by simpa using h1
    have h2m : status ∉ nba_protected := by simpa using h2
    simp [task_nba_decide, h1m, h2m, h3, decision_of_chat]

/-- C6 witness: on a terminal lead the run appends exactly its one new
row to an existing table and that row carries the 720-hour expiry. -/
theorem C6_decision_expiry_and_append_witness :
    task_nba_decide_db LeadStatus.closed_won [] false
      ProviderOutcome.requestFailed
      [⟨NBAAction.wait, none, [], 0.0, 24⟩] =
      [⟨NBAAction.wait, none, [], 0.0, 24⟩] ++
        [task_nba_decide LeadStatus.closed_won [] false
          ProviderOutcome.requestFailed] ∧
    (task_nba_decide LeadStatus.closed_won [] false
      ProviderOutcome.requestFailed).expires_hours = 720 :=
  ⟨(C6_decision_expiry_and_append LeadStatus.closed_won [] false
      ProviderOutcome.requestFailed [⟨NBAAction.wait, none, [], 0.0, 24⟩]).1,
   (C6_decision_expiry_and_append LeadStatus.closed_won [] false
      ProviderOutcome.requestFailed
      [⟨NBAAction.wait, none, [], 0.0, 24⟩]).2.1 (by decide)⟩

/-- C6 counterexample: the decision persisted for a terminal
(`closed_won`) lead expires 720 hours (30 days) after creation, not 24. -/
theorem C6_counterexample :
    (task_nba_decide LeadStatus.closed_won [] false
      ProviderOutcome.requestFailed).expires_hours = 720 ∧
    (720 : Nat) ≠ 24 := ⟨rfl, by decide⟩

/-- C7: when the voice tier is still eligible (under its cap) but its
window is closed, `select_channel` falls through to SMS exactly when SMS
is under its cap and inside its own window, and defers (`none`)
otherwise; and when the SMS tier is the eligible one and its window is
closed, the policy defers (`none`) rather than skipping ahead. -/
theorem C7_window_fallthrough (s : Settings) (n : Now) (lead : Lead) :
    (lead.total_call_attempts < MAX_CALL_ATTEMPTS →
      is_within_call_window s n = false →
      select_channel s n lead =
        (if lead.total_sms_sent < MAX_SMS_ATTEMPTS ∧
            is_within_sms_window s n = true
         then some ContactChannel.sms else none)) ∧
    (MAX_CALL_ATTEMPTS ≤ lead.total_call_attempts →
      lead.total_sms_sent < MAX_SMS_ATTEMPTS →
      is_within_sms_window s n = false →
      select_channel s n lead = none) := by
  constructor
  · intro hc hw
    simp [select_channel, hc, hw]
  · intro hc hs hw
    have hc' : ¬ lead.total_call_attempts < MAX_CALL_ATTEMPTS := by omega
    simp [select_channel, hc', hs, hw]

/-- C7 witness: on a Sunday evening a fresh lead (voice eligible, both
windows closed) is deferred, and a lead with voice capped and SMS
eligible is also deferred. -/
theorem C7_window_fallthrough_witness :
    select_channel defaultSettings ⟨15, 6⟩ ⟨LeadStatus.hot, 0, 0, 0⟩ =
      none ∧
    select_channel defaultSettings ⟨15, 6⟩ ⟨LeadStatus.hot, 3, 0, 0⟩ =
      none := by
  constructor
  · have h := (C7_window_fallthrough defaultSettings ⟨15, 6⟩
      ⟨LeadStatus.hot, 0, 0, 0⟩).1 (by decide) (by decide)
    simpa using h
  · exact (C7_window_fallthrough defaultSettings ⟨15, 6⟩
      ⟨LeadStatus.hot, 3, 0, 0⟩).2 (by decide) (by decide) (by decide)

/-- C8: with all three caps reached (`call>=3`, `sms>=3`, `email>=5`)
`select_channel` returns `none` (exhausted), for every time; with only
the first two reached and email under its cap it returns `email`, for
every time. -/
theorem C8_cap_exhaustion (s : Settings) (n : Now) (lead : Lead) :
    (MAX_CALL_ATTEMPTS ≤ lead.total_call_attempts →
      MAX_SMS_ATTEMPTS ≤ lead.total_sms_sent →
      MAX_EMAIL_ATTEMPTS ≤ lead.total_emails_sent →
      select_channel s n lead = none) ∧
    (MAX_CALL_ATTEMPTS ≤ lead.total_call_attempts →
      MAX_SMS_ATTEMPTS ≤ lead.total_sms_sent →
      lead.total_emails_sent < MAX_EMAIL_ATTEMPTS →
      select_channel s n lead = some ContactChannel.email) := by
  constructor
  · intro h1 h2 h3
    have h1' : ¬ lead.total_call_attempts < MAX_CALL_ATTEMPTS := by omega
    have h2' : ¬ lead.total_sms_sent < MAX_SMS_ATTEMPTS := by omega
    have h3' : ¬ lead.total_emails_sent < MAX_EMAIL_ATTEMPTS := by omega
    simp [select_channel, h1', h2', h3']
  · intro h1 h2 h3
    have h1' : ¬ lead.total_call_attempts < MAX_CALL_ATTEMPTS := by omega
    have h2' : ¬ lead.total_sms_sent < MAX_SMS_ATTEMPTS := by omega
    simp [select_channel, h1', h2', h3]

/-- C8 witness: at a weekday noon, a lead at 3/3/5 gets no channel and a
lead at 3/3/0 gets email. -/
theorem C8_cap_exhaustion_witness :
    select_channel defaultSettings ⟨17, 2⟩ ⟨LeadStatus.hot, 3, 3, 5⟩ =
      none ∧
    select_channel defaultSettings ⟨17, 2⟩ ⟨LeadStatus.hot, 3, 3, 0⟩ =
      some ContactChannel.email :=
  ⟨(C8_cap_exhaustion defaultSettings ⟨17, 2⟩
      ⟨LeadStatus.hot, 3, 3, 5⟩).1 (by decide) (by decide) (by decide),
   (C8_cap_exhaustion defaultSettings ⟨17, 2⟩
      ⟨LeadStatus.hot, 3, 3, 0⟩).2 (by decide) (by decide) (by decide)⟩

/-- C9 (amended): on the rest day (Sunday, `weekday = 6`) the voice and
SMS windows are closed and `select_channel` never returns voice or SMS —
but the email tier has no window check at all, so a lead with the voice
and SMS caps exhausted and email under cap is still selected for email on
Sunday; every other lead is deferred. -/
theorem C9_sunday (s : Settings) (n : Now) (lead : Lead)
    (h : n.weekday = 6) :
    is_within_call_window s n = false ∧
    is_within_sms_window s n = false ∧
    select_channel s n lead ≠ some ContactChannel.voice ∧
    select_channel s n lead ≠ some ContactChannel.sms ∧
    select_channel s n lead =
      (if MAX_CALL_ATTEMPTS ≤ lead.total_call_attempts ∧
          MAX_SMS_ATTEMPTS ≤ lead.total_sms_sent ∧
          lead.total_emails_sent < MAX_EMAIL_ATTEMPTS
       then some ContactChannel.email else none) := by
  have hcw : is_within_call_window s n = false := by
    simp [is_within_call_window, h]
  have hsw : is_within_sms_window s n = false := by
    simp [is_within_sms_window, h]
  have hsel : select_channel s n lead =
      (if MAX_CALL_ATTEMPTS ≤ lead.total_call_attempts ∧
          MAX_SMS_ATTEMPTS ≤ lead.total_sms_sent ∧
          lead.total_emails_sent < MAX_EMAIL_ATTEMPTS
       then some ContactChannel.email else none) := by
    rcases Nat.lt_or_ge lead.total_call_attempts MAX_CALL_ATTEMPTS with
      hc | hc
    · have hc2 : ¬ MAX_CALL_ATTEMPTS ≤ lead.total_call_attempts := by
        omega
      simp [select_channel, hc, hc2, hcw, hsw]
    · have hc' : ¬ lead.total_call_attempts < MAX_CALL_ATTEMPTS := by
        omega
      rcases Nat.lt_or_ge lead.total_sms_sent MAX_SMS_ATTEMPTS with
        hs2 | hs2
      · have hs3 : ¬ MAX_SMS_ATTEMPTS ≤ lead.total_sms_sent := by omega
        simp [select_channel, hc', hs2, hs3, hsw]
      · have hs3 : ¬ lead.total_sms_sent < MAX_SMS_ATTEMPTS := by omega
        rcases Nat.lt_or_ge lead.total_emails_sent MAX_EMAIL_ATTEMPTS with
          he | he
        · simp [select_channel, hc', hs3, he, hc, hs2]
        · have he' : ¬ lead.total_emails_sent < MAX_EMAIL_ATTEMPTS := by
            omega
          simp [select_channel, hc', hs3, he', he]
  refine ⟨hcw, hsw, ?_, ?_, hsel⟩
  · rw [hsel]
    split <;> simp
  · rw [hsel]
    split <;> simp

/-- C9 witness: a Sunday instant closes both windows and defers a fresh
lead. -/
theorem C9_sunday_witness :
    is_within_call_window defaultSettings ⟨15, 6⟩ = false ∧
    is_within_sms_window defaultSettings ⟨15, 6⟩ = false ∧
    select_channel defaultSettings ⟨15, 6⟩ ⟨LeadStatus.warm, 0, 0, 0⟩ =
      none := by
  have h := C9_sunday defaultSettings ⟨15, 6⟩
    ⟨LeadStatus.warm, 0, 0, 0⟩ rfl
  refine ⟨h.1, h.2.1, ?_⟩
  have h5 := h.2.2.2.2
  simpa using h5

/-- C9 counterexample: on a Sunday (weekday 6), a lead with the voice and
SMS caps exhausted and no emails sent is selected for the email channel —
outreach is not fully blocked on the rest day. -/
theorem C9_counterexample :
    (⟨15, 6⟩ : Now).weekday = 6 ∧
    select_channel defaultSettings ⟨15, 6⟩ ⟨LeadStatus.hot, 3, 3, 0⟩ =
      some ContactChannel.email ∧
    some ContactChannel.email ≠ (none : Option ContactChannel) := by
  decide

/-- C10: processing an opt-out received on one channel appends exactly
one `ConsentLog` row — consent type `all_channels`, status `opted_out` —
sets the lead status to `dnc`, and afterwards the compliance gate
`can_contact` (which gates all three channels at once and is not
channel-specific) denies every lead state against every consent table
that still contains the appended row. -/
theorem C10_opt_out_blocks_all_channels (lead : Lead)
    (logs : List ConsentLog) (channel : ContactChannel) (ts : Nat) :
    (handle_opt_out lead logs channel ts).2 =
      logs ++ [⟨ConsentType.all_channels, ConsentStatus.opted_out,
        channel, ts⟩] ∧
    (handle_opt_out lead logs channel ts).1.status = LeadStatus.dnc ∧
    ∀ (laterLead : Lead) (laterLogs : List ConsentLog),
      (handle_opt_out lead logs channel ts).2 ⊆ laterLogs →
      (can_contact laterLogs laterLead).1 = false := by
  refine ⟨rfl, rfl, ?_⟩
  intro laterLead laterLogs hsub
  have hmem : (⟨ConsentType.all_channels, ConsentStatus.opted_out,
      channel, ts⟩ : ConsentLog) ∈ laterLogs := by
    apply hsub
    simp [handle_opt_out]
  have hdnc : check_dnc laterLogs = true := by
    simp only [check_dnc, List.any_eq_true]
    exact ⟨_, hmem, by simp⟩
  simp [can_contact, hdnc]

/-- C10 witness: an SMS opt-out on a `hot` lead appends the
`all_channels`/`opted_out` row, flips the lead to `dnc`, and the gate then
denies a pristine lead against a consent table extended past the
append. -/
theorem C10_opt_out_blocks_all_channels_witness :
    (handle_opt_out ⟨LeadStatus.hot, 0, 0, 0⟩ [] ContactChannel.sms 7).2 =
      [⟨ConsentType.all_channels, ConsentStatus.opted_out,
        ContactChannel.sms, 7⟩] ∧
    (handle_opt_out ⟨LeadStatus.hot, 0, 0, 0⟩ []
      ContactChannel.sms 7).1.status = LeadStatus.dnc ∧
    (can_contact [⟨ConsentType.all_channels, ConsentStatus.opted_out,
        ContactChannel.sms, 7⟩,
        ⟨ConsentType.all_channels, ConsentStatus.opted_in,
        ContactChannel.voice, 9⟩] ⟨LeadStatus.hot, 0, 0, 0⟩).1 = false :=
  ⟨(C10_opt_out_blocks_all_channels ⟨LeadStatus.hot, 0, 0, 0⟩ []
      ContactChannel.sms 7).1,
   (C10_opt_out_blocks_all_channels ⟨LeadStatus.hot, 0, 0, 0⟩ []
      ContactChannel.sms 7).2.1,
   (C10_opt_out_blocks_all_channels ⟨LeadStatus.hot, 0, 0, 0⟩ []
      ContactChannel.sms 7).2.2 ⟨LeadStatus.hot, 0, 0, 0⟩
      [⟨ConsentType.all_channels, ConsentStatus.opted_out,
        ContactChannel.sms, 7⟩,
       ⟨ConsentType.all_channels, ConsentStatus.opted_in,
        ContactChannel.voice, 9⟩] (by simp [handle_opt_out])⟩

end SolarCommand
